import Mathlib

/-!
A shallow embedding of the TURN server control plane (`src/server/mod.rs`).

The embedding models:
- the `Command` protocol between the `Server` handle and its listener loops;
- one listener loop (`Server::read_loop`) as a step function `readLoopStep`
  over events (datagram arrival, receive error, command delivery, bus closed,
  lagged delivery), recording side-channel traffic (result-sink sends,
  completion-token drops) and logging as an explicit effect trace;
- the public handle operations (`delete_allocation`, `get_allocations`,
  `get_metrics`, `close`) as functions over a system state holding the
  optional broadcast publish handle plus the states of all spawned loops.
  A handle operation's round trip (publish to every live subscriber, each
  loop processes its copy of the command, the handle's single await resolves)
  is modelled atomically, which is the synchronous interleaving relevant to
  the single-listener claims.

The allocation manager, the configuration validator and the default lifetime
constant live outside the given sources and are modelled from the spec, as
marked on their doc comments.  The rest is translated from `mod.rs`.
-/

namespace TurnServer

/-- Errors surfaced by the control plane.  `errClosed` is `Error::ErrClosed`
from `mod.rs`; `errConfig` stands for the configuration-validation error and
`errNoSuchAllocation` for the allocation manager's not-found error, both
modelled from the spec's error taxonomy (§7). -/
inductive Error
  | errClosed
  | errConfig
  | errNoSuchAllocation
  deriving Repr, DecidableEq

/-- `FiveTuple`: opaque relay-session key (client address, server address,
transport protocol).  Modelled from the spec: used only as an opaque lookup
key by this core. -/
structure FiveTuple where
  protocol : Nat
  srcAddr : Nat
  dstAddr : Nat
  deriving Repr, DecidableEq

/-- One relay session owned by an allocation manager.  Modelled from the
spec: a session is bound to an owning identity (username) and a five-tuple,
and carries a metrics value (relayed-bytes count). -/
structure Allocation where
  username : String
  fiveTuple : FiveTuple
  relayedBytes : Nat
  deriving Repr, DecidableEq

/-- The data returned by an enumeration: the manager's session set. -/
abbrev AllocationMap := List Allocation

/-- Modelled from the spec: the external `AllocationManager` collaborator
(§6), one instance per listener, owning that listener's set of active relay
sessions. -/
structure Manager where
  allocs : List Allocation
  deriving Repr, DecidableEq

/-- Modelled from the spec: `delete_allocations_by_owner(identity)` evicts
all sessions owned by the given identity. -/
def Manager.deleteAllocationsByUsername (m : Manager) (name : String) : Manager :=
  { allocs := m.allocs.filter (fun a => !(decide (a.username = name))) }

/-- Modelled from the spec: `enumerate_allocations()` returns the manager's
current session set. -/
def Manager.getAllocations (m : Manager) : AllocationMap :=
  m.allocs

/-- Modelled from the spec: `get_metrics(session_key)` returns the metrics
of the session with that key, or a not-found error when no session matches. -/
def Manager.getMetrics (m : Manager) (ft : FiveTuple) : Except Error Nat :=
  match m.allocs.find? (fun a => decide (a.fiveTuple = ft)) with
  | some a => Except.ok a.relayedBytes
  | none => Except.error Error.errNoSuchAllocation

/-- Modelled from the spec: `close()` releases all sessions and frees
resources; its `Result` is ignored by the caller in `read_loop`. -/
def Manager.close (_m : Manager) : Manager × Except Error Unit :=
  ({ allocs := [] }, Except.ok ())

/-- `INBOUND_MTU` from `mod.rs` line 27: size of the fixed receive buffer. -/
def INBOUND_MTU : Nat := 1500

/-- The `Command` enum from `mod.rs`.  The `Arc<mpsc::Receiver<()>>`
completion tokens and `Arc<mpsc::Sender<..>>` result sinks embedded in the
Rust variants are modelled by the effect trace of the loop step
(`LoopEffect.droppedToken`, `LoopEffect.sentAllocations`,
`LoopEffect.sentMetrics`) rather than by channel values. -/
inductive Command
  | deleteAllocations (username : String)
  | getAllocations
  | getMetrics (fiveTuple : FiveTuple)
  | close
  deriving Repr, DecidableEq

/-- Lifecycle phase of one listener loop: it is `running` while iterating
and `closed` once it has broken out of the loop and drained. -/
inductive LoopPhase
  | running
  | closed
  deriving Repr, DecidableEq

/-- State owned by one listener loop: its phase, the reused receive buffer
(`let mut buf = vec![0u8; INBOUND_MTU]`), its private allocation manager,
and the realm / channel-bind timeout threaded into each request. -/
structure LoopState where
  phase : LoopPhase
  buf : List Nat
  manager : Manager
  realm : String
  channelBindTimeout : Nat
  deriving Repr, DecidableEq

/-- The per-datagram request context built in `read_loop` (the `Request`
struct literal at `mod.rs` lines 153-162).  The shared references it also
carries (`conn`, `allocation_manager`, `nonces`, `auth_handler`) are handles,
not data, and are left implicit. -/
structure Request where
  srcAddr : Nat
  buff : List Nat
  realm : String
  channelBindTimeout : Nat
  deriving Repr, DecidableEq

/-- One event a `read_loop` iteration can wake up on (the two
`futures::select!` arms at `mod.rs` lines 116-150).  A datagram event
carries the raw datagram bytes and the externally-determined outcome of the
`RequestHandler` collaborator on it (`handlerOk`). -/
inductive LoopEvent
  | datagram (srcAddr : Nat) (data : List Nat) (handlerOk : Bool)
  | recvErr
  | cmd (c : Command)
  | busClosed
  | lagged (n : Nat)
  deriving Repr, DecidableEq

deriving instance DecidableEq for Except

/-- Observable actions of one loop step: eviction performed, a value pushed
into a result sink, the completion-token clone dropped, log lines, the
request handed to the request handler, and the drain actions (allocation
manager closed, endpoint closed). -/
inductive LoopEffect
  | evicted (username : String)
  | sentAllocations (m : AllocationMap)
  | sentMetrics (r : Except Error Nat)
  | droppedToken
  | handledRequest (r : Request)
  | loggedHandlerError
  | loggedLag (n : Nat)
  | closedManager
  | closedConn
  deriving Repr, DecidableEq

/-- Result of one loop step: the successor loop state and the effects of the
step, in program order. -/
structure StepOut where
  state : LoopState
  effects : List LoopEffect
  deriving Repr, DecidableEq

/-- The drain sequence after `break` (`mod.rs` lines 169-170): close the
allocation manager and the endpoint; both results are discarded
(`let _ = ...`), so neither failure is escalated. -/
def drainLoop (st : LoopState) : StepOut :=
  let (m, _res) := st.manager.close
  { state := { st with phase := LoopPhase.closed, manager := m },
    effects := [LoopEffect.closedManager, LoopEffect.closedConn] }

/-- One iteration of `Server::read_loop` (`mod.rs` lines 115-167), as a
function of the event the `select!` woke up on.  A loop that has already
broken out (`phase = closed`) no longer iterates.  On a datagram, `n` bytes
are written into the front of the reused buffer (a UDP receive truncates to
the buffer length, so `n = min data.length INBOUND_MTU`), the request is
built over `buf[..n]`, and a handler failure is logged without leaving the
loop.  Commands follow the `match cmd` arms: delete evicts then drops its
token clone (the clone lives across the eviction await and is dropped on
`continue`); the two query commands push the manager's answer into the
result sink; `Close` and a closed bus break; a lagged notification is
logged and the loop continues. -/
def readLoopStep (st : LoopState) (ev : LoopEvent) : StepOut :=
  match st.phase with
  | LoopPhase.closed => { state := st, effects := [] }
  | LoopPhase.running =>
    match ev with
    | LoopEvent.datagram srcAddr data handlerOk =>
      let n := min data.length INBOUND_MTU
      let buf := data.take n ++ st.buf.drop n
      let req : Request :=
        { srcAddr := srcAddr, buff := buf.take n,
          realm := st.realm, channelBindTimeout := st.channelBindTimeout }
      { state := { st with buf := buf },
        effects :=
          if handlerOk then [LoopEffect.handledRequest req]
          else [LoopEffect.handledRequest req, LoopEffect.loggedHandlerError] }
    | LoopEvent.recvErr => drainLoop st
    | LoopEvent.cmd (Command.deleteAllocations name) =>
      { state := { st with manager := st.manager.deleteAllocationsByUsername name },
        effects := [LoopEffect.evicted name, LoopEffect.droppedToken] }
    | LoopEvent.cmd Command.getAllocations =>
      { state := st,
        effects := [LoopEffect.sentAllocations st.manager.getAllocations] }
    | LoopEvent.cmd (Command.getMetrics ft) =>
      { state := st,
        effects := [LoopEffect.sentMetrics (st.manager.getMetrics ft)] }
    | LoopEvent.cmd Command.close => drainLoop st
    | LoopEvent.busClosed => drainLoop st
    | LoopEvent.lagged n =>
      { state := st, effects := [LoopEffect.loggedLag n] }

/-- The `Server` struct fields that matter to the control plane: the realm,
the (possibly defaulted) channel-bind timeout, the shared nonce store, and
the optional broadcast publish handle (`Mutex<Option<broadcast::Sender>>`).
The `auth_handler` trait object is an opaque capability and is left
implicit. -/
structure Server where
  realm : String
  channelBindTimeout : Nat
  nonces : List (String × Nat)
  handle : Option Unit
  deriving Repr, DecidableEq

/-- Whole-system state: the handle plus every spawned listener loop.  A
loop's broadcast subscription lives exactly as long as its task, so the
publish side's `receiver_count()` is the number of loops still running. -/
structure Sys where
  server : Server
  loops : List LoopState
  deriving Repr, DecidableEq

/-- `broadcast::Sender::receiver_count()`: the number of live subscribers,
one per loop that has not yet exited. -/
def Sys.receiverCount (s : Sys) : Nat :=
  (s.loops.filter (fun l => decide (l.phase = LoopPhase.running))).length

/-- Deliver one published command to every subscribed loop: each loop
receives its own clone and processes it; the effect traces are concatenated
in loop order. -/
def stepAll (loops : List LoopState) (ev : LoopEvent) : List LoopState × List LoopEffect :=
  (loops.map (fun l => (readLoopStep l ev).state),
   (loops.map (fun l => (readLoopStep l ev).effects)).flatten)

/-- Outcome of one public handle operation: the successor system state, the
value returned to the caller, the command published onto the bus (if the
publish reached the bus), and the concatenated loop effects of the round
trip. -/
structure OpResult (α : Type) where
  sys : Sys
  ret : Except Error α
  published : Option Command
  trace : List LoopEffect

/-- First value pushed into the enumerate result sink; the handle's single
`allocation_rx.recv().await` yields it (capacity-one channel). -/
def firstAllocations : List LoopEffect → Option AllocationMap
  | [] => none
  | LoopEffect.sentAllocations m :: _ => some m
  | _ :: rest => firstAllocations rest

/-- First value pushed into the metrics result sink; the handle's single
`metrics_rx.recv().await` yields it. -/
def firstMetrics : List LoopEffect → Option (Except Error Nat)
  | [] => none
  | LoopEffect.sentMetrics r :: _ => some r
  | _ :: rest => firstMetrics rest

/-- `Server::delete_allocation` (`mod.rs` lines 174-187): clone the handle
out of the mutex; if it is gone, fail with `ErrClosed`.  Otherwise publish
`DeleteAllocations` with a fresh completion token (`tx.send(..)` fails with
`ErrClosed` when no subscriber exists), then await `closed_tx.closed()`,
which resolves once every loop has processed its copy and dropped its token
clone, and return `Ok(())`. -/
def Sys.delete_allocation (s : Sys) (username : String) : OpResult Unit :=
  match s.server.handle with
  | none => { sys := s, ret := Except.error Error.errClosed, published := none, trace := [] }
  | some _ =>
    if s.receiverCount = 0 then
      { sys := s, ret := Except.error Error.errClosed, published := none, trace := [] }
    else
      let (loops, effs) := stepAll s.loops (LoopEvent.cmd (Command.deleteAllocations username))
      { sys := { s with loops := loops },
        ret := Except.ok (),
        published := some (Command.deleteAllocations username),
        trace := effs }

/-- `Server::get_allocations` (`mod.rs` lines 189-200): with the handle
present, publish `GetAllocations` with a fresh capacity-1 result sink and
await exactly one value from the paired receiver; a receiver that yields
`None` (all senders dropped without sending) maps to `ErrClosed`. -/
def Sys.get_allocations (s : Sys) : OpResult AllocationMap :=
  match s.server.handle with
  | none => { sys := s, ret := Except.error Error.errClosed, published := none, trace := [] }
  | some _ =>
    if s.receiverCount = 0 then
      { sys := s, ret := Except.error Error.errClosed, published := none, trace := [] }
    else
      let (loops, effs) := stepAll s.loops (LoopEvent.cmd Command.getAllocations)
      { sys := { s with loops := loops },
        ret := match firstAllocations effs with
               | some m => Except.ok m
               | none => Except.error Error.errClosed,
        published := some Command.getAllocations,
        trace := effs }

/-- `Server::get_metrics` (`mod.rs` lines 202-213): same shape as
`get_allocations`; the received value is itself a `Result<usize>` and the
trailing `?` returns it to the caller unchanged, so a not-found error sent
by the loop propagates as a value. -/
def Sys.get_metrics (s : Sys) (ft : FiveTuple) : OpResult Nat :=
  match s.server.handle with
  | none => { sys := s, ret := Except.error Error.errClosed, published := none, trace := [] }
  | some _ =>
    if s.receiverCount = 0 then
      { sys := s, ret := Except.error Error.errClosed, published := none, trace := [] }
    else
      let (loops, effs) := stepAll s.loops (LoopEvent.cmd (Command.getMetrics ft))
      { sys := { s with loops := loops },
        ret := (firstMetrics effs).getD (Except.error Error.errClosed),
        published := some (Command.getMetrics ft),
        trace := effs }

/-- `Server::close` (`mod.rs` lines 216-229): `take()` the handle out of the
mutex (so it is absent afterwards in every branch).  If it was already gone,
return `Ok(())`.  If `receiver_count() == 0`, return `Ok(())` at once —
nothing to wait for.  Otherwise publish `Close` (send error ignored) and
await `closed_tx.closed()`, which resolves once every loop has broken out
and dropped its token clone. -/
def Sys.close (s : Sys) : OpResult Unit :=
  match s.server.handle with
  | none => { sys := s, ret := Except.ok (), published := none, trace := [] }
  | some _ =>
    if s.receiverCount = 0 then
      { sys := { s with server := { s.server with handle := none } },
        ret := Except.ok (), published := none, trace := [] }
    else
      let (loops, effs) := stepAll s.loops (LoopEvent.cmd Command.close)
      { sys := { server := { s.server with handle := none }, loops := loops },
        ret := Except.ok (), published := some Command.close, trace := effs }

/-- Modelled from the spec: the default lifetime (`proto::lifetime::
DEFAULT_LIFETIME`, outside the given sources) applied as channel-bind
timeout when none is supplied; the standard TURN default of 600 seconds. -/
def DEFAULT_LIFETIME : Nat := 600

/-- Per-listener transport configuration; the connection, relay-address
generator and metrics flag are opaque to this core. -/
structure ConnConfig where
  connId : Nat
  deriving Repr, DecidableEq

/-- `ServerConfig` as consumed by `Server::new`.  `valid` abstracts the
outcome of `config.validate()` (modelled from the spec: construction
validates the configuration and fails fast with a configuration error if
invalid; the validator itself is outside the given sources). -/
structure ServerConfig where
  valid : Bool
  realm : String
  channelBindTimeout : Nat
  connConfigs : List ConnConfig
  deriving Repr, DecidableEq

/-- Modelled from the spec: `config.validate()` fails with a configuration
error exactly when the configuration is invalid. -/
def ServerConfig.validate (c : ServerConfig) : Except Error Unit :=
  if c.valid then Except.ok () else Except.error Error.errConfig

/-- `Server::new` (`mod.rs` lines 56-103): validate the configuration
(`?` propagates the error before anything is spawned), build the server,
replace a zero channel-bind timeout with `DEFAULT_LIFETIME`, then spawn one
listener loop per transport config — each loop subscribed to the bus and
given the (already defaulted) timeout, a fresh `vec![0u8; INBOUND_MTU]`
buffer and a fresh allocation manager. -/
def Server.new (config : ServerConfig) : Except Error Sys :=
  match config.validate with
  | Except.error e => Except.error e
  | Except.ok _ =>
    let cbt := if config.channelBindTimeout = 0 then DEFAULT_LIFETIME
               else config.channelBindTimeout
    Except.ok
      { server :=
          { realm := config.realm, channelBindTimeout := cbt,
            nonces := [], handle := some () },
        loops := config.connConfigs.map (fun _ =>
          { phase := LoopPhase.running,
            buf := List.replicate INBOUND_MTU 0,
            manager := { allocs := [] },
            realm := config.realm,
            channelBindTimeout := cbt }) }

/-- The events on which `read_loop` leaves its running state: an endpoint
receive error, a closed bus subscription, and the `Close` command (the three
`break`s in `mod.rs`). -/
def LoopEvent.exits : LoopEvent → Bool
  | LoopEvent.recvErr => true
  | LoopEvent.busClosed => true
  | LoopEvent.cmd Command.close => true
  | _ => false

/-- Whether an effect is the hand-off of a request to the request handler. -/
def LoopEffect.isHandled : LoopEffect → Bool
  | LoopEffect.handledRequest _ => true
  | _ => false

/-- The first request handed to the request handler in an effect trace. -/
def firstRequest : List LoopEffect → Option Request
  | [] => none
  | LoopEffect.handledRequest r :: _ => some r
  | _ :: rest => firstRequest rest

/-- A concrete session used by the witnesses. -/
def demoAlloc : Allocation :=
  { username := "alice",
    fiveTuple := { protocol := 17, srcAddr := 1, dstAddr := 2 },
    relayedBytes := 42 }

/-- A five-tuple matching no session of `demoLoop`, used by the witnesses. -/
def demoMissingTuple : FiveTuple :=
  { protocol := 6, srcAddr := 9, dstAddr := 9 }

/-- A concrete running listener loop used by the witnesses. -/
def demoLoop : LoopState :=
  { phase := LoopPhase.running,
    buf := List.replicate INBOUND_MTU 0,
    manager := { allocs := [demoAlloc] },
    realm := "example.org",
    channelBindTimeout := 600 }

/-- A concrete open single-listener system used by the witnesses. -/
def demoSys : Sys :=
  { server :=
      { realm := "example.org", channelBindTimeout := 600,
        nonces := [], handle := some () },
    loops := [demoLoop] }

/-- A concrete valid configuration with an unset channel-bind timeout, used
by the witnesses. -/
def demoConfig : ServerConfig :=
  { valid := true, realm := "example.org", channelBindTimeout := 0,
    connConfigs := [{ connId := 0 }] }

/-! ## Helper lemmas -/

/-- `close` removes the publish handle in every branch (`take()`). -/
theorem close_handle_none (s : Sys) : (Sys.close s).sys.server.handle = none := by
  cases hs : s.server.handle with
  | none => simp [Sys.close, hs]
  | some u => by_cases hc : s.receiverCount = 0 <;> simp [Sys.close, hs, hc]

/-- With the handle absent, `delete_allocation` fails with `ErrClosed` and
publishes nothing. -/
theorem delete_allocation_closed_helper (s : Sys) (u : String)
    (h : s.server.handle = none) :
    (s.delete_allocation u).ret = Except.error Error.errClosed
    ∧ (s.delete_allocation u).published = none := by
  simp [Sys.delete_allocation, h]

/-- With the handle absent, `get_allocations` fails with `ErrClosed` and
publishes nothing. -/
theorem get_allocations_closed_helper (s : Sys)
    (h : s.server.handle = none) :
    s.get_allocations.ret = Except.error Error.errClosed
    ∧ s.get_allocations.published = none := by
  simp [Sys.get_allocations, h]

/-- With the handle absent, `get_metrics` fails with `ErrClosed` and
publishes nothing. -/
theorem get_metrics_closed_helper (s : Sys) (ft : FiveTuple)
    (h : s.server.handle = none) :
    (s.get_metrics ft).ret = Except.error Error.errClosed
    ∧ (s.get_metrics ft).published = none := by
  simp [Sys.get_metrics, h]

/-- With the handle absent (already taken), `close` is a no-op that returns
success without publishing. -/
theorem close_of_handle_none (t : Sys) (h : t.server.handle = none) :
    Sys.close t = { sys := t, ret := Except.ok (), published := none, trace := [] } := by
  simp [Sys.close, h]

/-! ## The claims -/

/-- C1: every administrative call (`delete_allocation`, `get_allocations`,
`get_metrics`) invoked after `close()` has completed returns the `ErrClosed`
error — it does not succeed, and nothing is published so nothing is awaited
(no hang): `close()` removed the publish handle and each operation checks
for its presence first. -/
theorem claim1_admin_calls_after_close_return_closed (s : Sys) (u : String) (ft : FiveTuple) :
    ((Sys.close s).sys.delete_allocation u).ret = Except.error Error.errClosed
    ∧ ((Sys.close s).sys.get_allocations).ret = Except.error Error.errClosed
    ∧ ((Sys.close s).sys.get_metrics ft).ret = Except.error Error.errClosed
    ∧ ((Sys.close s).sys.delete_allocation u).published = none
    ∧ ((Sys.close s).sys.get_allocations).published = none
    ∧ ((Sys.close s).sys.get_metrics ft).published = none := by
  have h := close_handle_none s
  exact ⟨(delete_allocation_closed_helper _ u h).1,
         (get_allocations_closed_helper _ h).1,
         (get_metrics_closed_helper _ ft h).1,
         (delete_allocation_closed_helper _ u h).2,
         (get_allocations_closed_helper _ h).2,
         (get_metrics_closed_helper _ ft h).2⟩

/-- C2: `close()` is idempotent: after a completed first `close()`, a second
`close()` finds the publish handle already taken (`take()` yields `None`),
publishes nothing (so it waits on no completion token), changes nothing, and
returns success. -/
theorem claim2_close_idempotent (s : Sys) :
    (Sys.close s).sys.server.handle = none
    ∧ (Sys.close (Sys.close s).sys).ret = Except.ok ()
    ∧ (Sys.close (Sys.close s).sys).published = none
    ∧ (Sys.close (Sys.close s).sys).trace = []
    ∧ (Sys.close (Sys.close s).sys).sys = (Sys.close s).sys := by
  have h := close_handle_none s
  rw [close_of_handle_none _ h]
  exact ⟨h, rfl, rfl, rfl, rfl⟩

/-- C6: `Server::new(config)` returns a configuration error exactly when
validation fails (and then no system — hence no listener loop — is
produced), and when no channel-bind timeout is supplied (the zero duration)
the constructed server and every listener loop it spawns carry
`DEFAULT_LIFETIME` instead (the default is applied before the loops are
spawned, so each loop receives the defaulted value). -/
theorem claim6_new_validation_and_default_timeout (config : ServerConfig) :
    (Server.new config).isOk = config.valid
    ∧ decide (Server.new config = Except.error Error.errConfig) = !config.valid
    ∧ (Server.new config).toOption.all (fun s =>
        (s.server.channelBindTimeout ==
          (if config.channelBindTimeout = 0 then DEFAULT_LIFETIME
           else config.channelBindTimeout))
        && s.loops.all (fun l => l.channelBindTimeout == s.server.channelBindTimeout)) = true := by
  cases hv : config.valid <;>
    simp [Server.new, ServerConfig.validate, hv, Except.isOk, Except.toBool, Except.toOption,
      List.all_map, Function.comp]

/-- C7: a running listener loop leaves its running state exactly on an
endpoint receive error, a closed bus subscription, or the `Close` command;
and exactly in those cases it closes its allocation manager and its endpoint
(both appear in the drain effects; their results are discarded, so neither
failure is escalated). -/
theorem claim7_loop_exits_exactly_three_ways (l : LoopState) (ev : LoopEvent)
    (h : l.phase = LoopPhase.running) :
    (((readLoopStep l ev).state.phase = LoopPhase.closed) ↔ ev.exits = true)
    ∧ ((LoopEffect.closedManager ∈ (readLoopStep l ev).effects) ↔ ev.exits = true)
    ∧ ((LoopEffect.closedConn ∈ (readLoopStep l ev).effects) ↔ ev.exits = true) := by
  cases ev with
  | datagram a d ok => cases ok <;> simp [readLoopStep, h, LoopEvent.exits]
  | recvErr => simp [readLoopStep, h, LoopEvent.exits, drainLoop, Manager.close]
  | cmd c => cases c <;> simp [readLoopStep, h, LoopEvent.exits, drainLoop, Manager.close]
  | busClosed => simp [readLoopStep, h, LoopEvent.exits, drainLoop, Manager.close]
  | lagged n => simp [readLoopStep, h, LoopEvent.exits]

/-- C7 witness: the concrete loop on the `Close` command. -/
theorem claim7_witness :
    (((readLoopStep demoLoop (LoopEvent.cmd Command.close)).state.phase = LoopPhase.closed)
       ↔ (LoopEvent.cmd Command.close).exits = true)
    ∧ ((LoopEffect.closedManager ∈ (readLoopStep demoLoop (LoopEvent.cmd Command.close)).effects)
       ↔ (LoopEvent.cmd Command.close).exits = true)
    ∧ ((LoopEffect.closedConn ∈ (readLoopStep demoLoop (LoopEvent.cmd Command.close)).effects)
       ↔ (LoopEvent.cmd Command.close).exits = true) :=
  claim7_loop_exits_exactly_three_ways demoLoop (LoopEvent.cmd Command.close) rfl

/-- C8: a failure reported by the request handler for one datagram is logged
and does not terminate the loop: the loop is still running afterwards, and a
subsequent well-formed datagram on the same endpoint is still handed to the
handler. -/
theorem claim8_handler_failure_does_not_kill_loop (l : LoopState) (a1 a2 : Nat)
    (d1 d2 : List Nat) (h : l.phase = LoopPhase.running) :
    (readLoopStep l (LoopEvent.datagram a1 d1 false)).state.phase = LoopPhase.running
    ∧ LoopEffect.loggedHandlerError ∈
        (readLoopStep l (LoopEvent.datagram a1 d1 false)).effects
    ∧ ((readLoopStep (readLoopStep l (LoopEvent.datagram a1 d1 false)).state
          (LoopEvent.datagram a2 d2 true)).effects.any LoopEffect.isHandled) = true := by
  simp [readLoopStep, h, LoopEffect.isHandled]

/-- C8 witness: the concrete loop, a failing datagram then a succeeding one. -/
theorem claim8_witness :
    (readLoopStep demoLoop (LoopEvent.datagram 1 [7, 8] false)).state.phase = LoopPhase.running
    ∧ LoopEffect.loggedHandlerError ∈
        (readLoopStep demoLoop (LoopEvent.datagram 1 [7, 8] false)).effects
    ∧ ((readLoopStep (readLoopStep demoLoop (LoopEvent.datagram 1 [7, 8] false)).state
          (LoopEvent.datagram 2 [9] true)).effects.any LoopEffect.isHandled) = true :=
  claim8_handler_failure_does_not_kill_loop demoLoop 1 2 [7, 8] [9] rfl

/-- C9: a lagged bus notification is logged and the loop continues running,
unchanged, with no retry of the skipped commands (the step's only effect is
the log line). -/
theorem claim9_lagged_is_nonfatal (l : LoopState) (n : Nat)
    (h : l.phase = LoopPhase.running) :
    (readLoopStep l (LoopEvent.lagged n)).state = l
    ∧ (readLoopStep l (LoopEvent.lagged n)).effects = [LoopEffect.loggedLag n] := by
  simp [readLoopStep, h]

/-- C9 witness: the concrete loop lagging by 3 commands. -/
theorem claim9_witness :
    (readLoopStep demoLoop (LoopEvent.lagged 3)).state = demoLoop
    ∧ (readLoopStep demoLoop (LoopEvent.lagged 3)).effects = [LoopEffect.loggedLag 3] :=
  claim9_lagged_is_nonfatal demoLoop 3 rfl

/-- Deleting by owner leaves no session of that owner: filtering the evicted
manager's sessions for the owner yields nothing. -/
theorem filter_after_delete_nil (xs : List Allocation) (u : String) :
    (xs.filter (fun a => !(decide (a.username = u)))).filter
      (fun a => decide (a.username = u)) = [] := by
  induction xs with
  | nil => rfl
  | cons x t ih => by_cases h : x.username = u <;> simp [h, ih]

/-- A manager holding no session for a key answers `get_metrics` with the
not-found error. -/
theorem getMetrics_not_found_of_all_ne (m : Manager) (ft : FiveTuple)
    (h : m.allocs.all (fun a => !(decide (a.fiveTuple = ft))) = true) :
    m.getMetrics ft = Except.error Error.errNoSuchAllocation := by
  unfold Manager.getMetrics
  have hf : m.allocs.find? (fun a => decide (a.fiveTuple = ft)) = none := by
    rw [List.find?_eq_none]
    intro x hx
    have hx2 := List.all_eq_true.mp h x hx
    simpa using hx2
  rw [hf]

/-- Round trip of `get_allocations` on an open single-listener system: the
published enumerate command reaches the one running loop, which pushes its
manager's current session set into the fresh capacity-1 sink; the handle's
single awaited receive returns exactly that set, and the loop (in particular
its manager) is unchanged. -/
theorem get_allocations_single_helper (s : Sys) (l : LoopState)
    (hh : s.server.handle = some ()) (hl : s.loops = [l])
    (hrun : l.phase = LoopPhase.running) :
    s.get_allocations.ret = Except.ok l.manager.getAllocations
    ∧ s.get_allocations.published = some Command.getAllocations
    ∧ s.get_allocations.trace = [LoopEffect.sentAllocations l.manager.getAllocations]
    ∧ s.get_allocations.sys.loops = [l] := by
  refine ⟨?_, ?_, ?_, ?_⟩ <;>
    simp [Sys.get_allocations, hh, hl, Sys.receiverCount, hrun, stepAll, readLoopStep,
      firstAllocations]

/-- Taking back the just-written prefix of the receive buffer returns the
datagram prefix itself. -/
theorem take_written_prefix (d rest : List Nat) (n : Nat) (hn : n ≤ d.length) :
    (d.take n ++ rest).take n = d.take n := by
  rw [List.take_append_of_le_length (by simp [Nat.min_eq_left hn]), List.take_take]
  simp

/-- C3: in a single-listener configuration, `delete_allocation(identity)`
succeeds, and by the time it returns the loop has synchronously completed
the eviction: the loop's effect trace shows the eviction strictly before the
drop of its completion-token clone, the returned system's loop holds the
evicted manager, an `enumerate` issued after the call returns that evicted
session set, and that set holds exactly 0 sessions of the identity. -/
theorem claim3_delete_allocation_synchronous_eviction (s : Sys) (l : LoopState) (u : String)
    (hh : s.server.handle = some ()) (hl : s.loops = [l])
    (hrun : l.phase = LoopPhase.running) :
    (s.delete_allocation u).ret = Except.ok ()
    ∧ (s.delete_allocation u).published = some (Command.deleteAllocations u)
    ∧ (s.delete_allocation u).trace = [LoopEffect.evicted u, LoopEffect.droppedToken]
    ∧ (s.delete_allocation u).sys.loops =
        [{ l with manager := l.manager.deleteAllocationsByUsername u }]
    ∧ ((s.delete_allocation u).sys.get_allocations).ret =
        Except.ok ((l.manager.deleteAllocationsByUsername u).getAllocations)
    ∧ ((l.manager.deleteAllocationsByUsername u).allocs.filter
         (fun a => decide (a.username = u))).length = 0 := by
  have h4 : (s.delete_allocation u).sys.loops =
      [{ l with manager := l.manager.deleteAllocationsByUsername u }] := by
    simp [Sys.delete_allocation, hh, hl, Sys.receiverCount, hrun, stepAll, readLoopStep]
  have hh2 : (s.delete_allocation u).sys.server.handle = some () := by
    simp [Sys.delete_allocation, hh, hl, Sys.receiverCount, hrun, stepAll, readLoopStep]
  have h5 := get_allocations_single_helper (s.delete_allocation u).sys
    { l with manager := l.manager.deleteAllocationsByUsername u } hh2 h4 (by simp [hrun])
  refine ⟨?_, ?_, ?_, h4, h5.1, ?_⟩
  · simp [Sys.delete_allocation, hh, hl, Sys.receiverCount, hrun, stepAll, readLoopStep]
  · simp [Sys.delete_allocation, hh, hl, Sys.receiverCount, hrun, stepAll, readLoopStep]
  · simp [Sys.delete_allocation, hh, hl, Sys.receiverCount, hrun, stepAll, readLoopStep]
  · simp [Manager.deleteAllocationsByUsername, filter_after_delete_nil]

/-- C3 witness: deleting `"alice"`, who owns the only session of the
concrete single-listener system. -/
theorem claim3_witness :
    (demoSys.delete_allocation "alice").ret = Except.ok ()
    ∧ (demoSys.delete_allocation "alice").published =
        some (Command.deleteAllocations "alice")
    ∧ (demoSys.delete_allocation "alice").trace =
        [LoopEffect.evicted "alice", LoopEffect.droppedToken]
    ∧ (demoSys.delete_allocation "alice").sys.loops =
        [{ demoLoop with manager := demoLoop.manager.deleteAllocationsByUsername "alice" }]
    ∧ ((demoSys.delete_allocation "alice").sys.get_allocations).ret =
        Except.ok ((demoLoop.manager.deleteAllocationsByUsername "alice").getAllocations)
    ∧ ((demoLoop.manager.deleteAllocationsByUsername "alice").allocs.filter
         (fun a => decide (a.username = "alice"))).length = 0 :=
  claim3_delete_allocation_synchronous_eviction demoSys demoLoop "alice" rfl rfl rfl

/-- C4: `get_allocations()` publishes the enumerate command with a fresh
capacity-1 result sink and awaits exactly one value from the paired
receiver; in a single-listener configuration that value is exactly the
allocation manager's session set as read at the moment the loop processed
the command (the loop is left unchanged, so the snapshot is neither stale
nor future). -/
theorem claim4_get_allocations_exact_snapshot (s : Sys) (l : LoopState)
    (hh : s.server.handle = some ()) (hl : s.loops = [l])
    (hrun : l.phase = LoopPhase.running) :
    s.get_allocations.ret = Except.ok l.manager.getAllocations
    ∧ s.get_allocations.published = some Command.getAllocations
    ∧ s.get_allocations.trace = [LoopEffect.sentAllocations l.manager.getAllocations]
    ∧ s.get_allocations.sys.loops = [l] :=
  get_allocations_single_helper s l hh hl hrun

/-- C4 witness: enumerating the concrete single-listener system. -/
theorem claim4_witness :
    demoSys.get_allocations.ret = Except.ok demoLoop.manager.getAllocations
    ∧ demoSys.get_allocations.published = some Command.getAllocations
    ∧ demoSys.get_allocations.trace =
        [LoopEffect.sentAllocations demoLoop.manager.getAllocations]
    ∧ demoSys.get_allocations.sys.loops = [demoLoop] :=
  claim4_get_allocations_exact_snapshot demoSys demoLoop rfl rfl rfl

/-- C5: `get_metrics(key)` on an open server whose live listener owns no
session for the key yields a definite not-found outcome: the loop pushes the
manager's not-found `Result` into the result sink as a value (it appears in
the trace), so the handle's single awaited receive resolves to that error
rather than hanging on an empty sink. -/
theorem claim5_get_metrics_not_found_is_definite (s : Sys) (l : LoopState) (ft : FiveTuple)
    (hh : s.server.handle = some ()) (hl : s.loops = [l])
    (hrun : l.phase = LoopPhase.running)
    (hno : l.manager.allocs.all (fun a => !(decide (a.fiveTuple = ft))) = true) :
    (s.get_metrics ft).ret = Except.error Error.errNoSuchAllocation
    ∧ (s.get_metrics ft).trace =
        [LoopEffect.sentMetrics (Except.error Error.errNoSuchAllocation)]
    ∧ (s.get_metrics ft).published = some (Command.getMetrics ft) := by
  have hm := getMetrics_not_found_of_all_ne l.manager ft hno
  refine ⟨?_, ?_, ?_⟩ <;>
    simp [Sys.get_metrics, hh, hl, Sys.receiverCount, hrun, stepAll, readLoopStep,
      firstMetrics, hm]

/-- C5 witness: asking the concrete system for metrics of a five-tuple that
matches none of its sessions. -/
theorem claim5_witness :
    (demoSys.get_metrics demoMissingTuple).ret = Except.error Error.errNoSuchAllocation
    ∧ (demoSys.get_metrics demoMissingTuple).trace =
        [LoopEffect.sentMetrics (Except.error Error.errNoSuchAllocation)]
    ∧ (demoSys.get_metrics demoMissingTuple).published =
        some (Command.getMetrics demoMissingTuple) :=
  claim5_get_metrics_not_found_is_definite demoSys demoLoop demoMissingTuple rfl rfl rfl
    (by decide)

/-- C10: every datagram handed to the request handler fits the fixed
`INBOUND_MTU` buffer: with the buffer at its fixed length 1500, a datagram
event hands the handler exactly the first `n = min length INBOUND_MTU`
received bytes (a larger datagram's excess bytes are never seen), the slice
bound `n` never exceeds the buffer's length, and the reused buffer keeps its
fixed length for the next iteration. -/
theorem claim10_datagram_payload_bounded (l : LoopState) (a : Nat) (d : List Nat) (ok : Bool)
    (hrun : l.phase = LoopPhase.running) (hbuf : l.buf.length = INBOUND_MTU) :
    firstRequest (readLoopStep l (LoopEvent.datagram a d ok)).effects =
      some { srcAddr := a, buff := d.take (min d.length INBOUND_MTU),
             realm := l.realm, channelBindTimeout := l.channelBindTimeout }
    ∧ (d.take (min d.length INBOUND_MTU)).length ≤ INBOUND_MTU
    ∧ (readLoopStep l (LoopEvent.datagram a d ok)).state.buf.length = INBOUND_MTU
    ∧ min d.length INBOUND_MTU ≤ (readLoopStep l (LoopEvent.datagram a d ok)).state.buf.length := by
  have hn : min d.length INBOUND_MTU ≤ d.length := Nat.min_le_left _ _
  have htake := take_written_prefix d (l.buf.drop (min d.length INBOUND_MTU))
    (min d.length INBOUND_MTU) hn
  have hlen : (d.take (min d.length INBOUND_MTU) ++
      l.buf.drop (min d.length INBOUND_MTU)).length = INBOUND_MTU := by
    rw [List.length_append, List.length_take, List.length_drop, hbuf]
    unfold INBOUND_MTU
    omega
  refine ⟨?_, ?_, ?_, ?_⟩
  · cases ok <;> simp [readLoopStep, hrun, firstRequest, htake]
  · rw [List.length_take]
    exact le_trans (Nat.min_le_left _ _) (Nat.min_le_right _ _)
  · cases ok <;> simp only [readLoopStep, hrun] <;> exact hlen
  · cases ok <;> simp only [readLoopStep, hrun] <;> rw [hlen] <;>
      exact Nat.min_le_right _ _


/-- C10 witness: the concrete loop receiving a 3-byte datagram. -/
theorem claim10_witness :
    firstRequest (readLoopStep demoLoop (LoopEvent.datagram 1 [7, 8, 9] true)).effects =
      some { srcAddr := 1, buff := [7, 8, 9].take (min [7, 8, 9].length INBOUND_MTU),
             realm := demoLoop.realm, channelBindTimeout := demoLoop.channelBindTimeout }
    ∧ ([7, 8, 9].take (min [7, 8, 9].length INBOUND_MTU)).length ≤ INBOUND_MTU
    ∧ (readLoopStep demoLoop (LoopEvent.datagram 1 [7, 8, 9] true)).state.buf.length = INBOUND_MTU
    ∧ min [7, 8, 9].length INBOUND_MTU ≤
        (readLoopStep demoLoop (LoopEvent.datagram 1 [7, 8, 9] true)).state.buf.length :=
  claim10_datagram_payload_bounded demoLoop 1 [7, 8, 9] true rfl
    (by rw [show demoLoop.buf = List.replicate INBOUND_MTU 0 from rfl, List.length_replicate])

end TurnServer
